import Mathlib

/-!
Shallow embedding of the core logic of the pokemon-card-evaluator repository:
the Vault store (add/update/delete/import/export over collection entries),
the stats engine, the mock grading generator, and the radar-chart geometry.

Modelling conventions, chosen to mirror the JavaScript source:
- A JS object field that may be absent is a slot of type `Option (Option α)`:
  `none` means the key is absent, `some none` means the key is present with
  value `undefined` (or `null`; the two are conflated, as every operation in
  the source treats them alike), and `some (some v)` means the key holds `v`.
- Reading a field of a constructed entry yields `Option α`:
  `none` models `undefined`/`null`.
- JS numbers are modelled as rationals; every arithmetic operation in the
  source stays well inside the range where IEEE doubles are exact or where
  the claims do not depend on rounding of the binary representation.
- Asynchronous storage is modelled by passing the outcome of the pending
  I/O as an explicit parameter (`Option StorageError` for a write,
  `Except StorageError (Option _)` for a read).
-/

namespace PokemonVault

/-- JS truthiness fallback `v || dflt` for a string-valued field read:
`undefined`, `null` and the empty string are falsy. -/
def jsOrStr (v : Option String) (dflt : String) : String :=
  match v with
  | none => dflt
  | some s => if s = "" then dflt else s

/-- JS truthiness fallback `v || dflt` for a number-valued field read:
`undefined`, `null` and `0` are falsy. -/
def jsOrQ (v : Option ℚ) (dflt : ℚ) : ℚ :=
  match v with
  | none => dflt
  | some x => if x = 0 then dflt else x

/-- JS truthiness fallback `v || dflt` for an object- or array-valued field
read: only `undefined`/`null` are falsy; `\x7b\x7d` and `[]` are truthy. -/
def jsOrObj {α : Type} (v : Option α) (dflt : α) : α :=
  v.getD dflt

/-- Longest run of leading decimal digits of a character list, together with
the remainder. -/
def takeDigits : List Char → List Char × List Char
  | [] => ([], [])
  | c :: cs =>
      if c.isDigit then
        let r := takeDigits cs
        (c :: r.1, r.2)
      else ([], c :: cs)

/-- Numeric value of a list of decimal digit characters. -/
def digitsToNat (ds : List Char) : ℕ :=
  ds.foldl (fun acc c => acc * 10 + (c.toNat - 48)) 0

/-- Unsigned part of JS `parseFloat`: longest numeric prefix of the form
`digits`, `digits.digits`, or `.digits`; `none` models `NaN`. -/
def parseUnsigned (cs : List Char) : Option ℚ :=
  let ip := takeDigits cs
  match ip.2 with
  | '.' :: rest2 =>
      let fp := takeDigits rest2
      if ip.1.isEmpty ∧ fp.1.isEmpty then none
      else some ((digitsToNat ip.1 : ℚ) + (digitsToNat fp.1 : ℚ) / (10 ^ fp.1.length))
  | _ => if ip.1.isEmpty then none else some (digitsToNat ip.1)

/-- JS whitespace test for the characters that `parseFloat` skips; the
repository only ever passes ordinary spaces. -/
def isJsSpace (c : Char) : Bool :=
  c == ' ' || c == '\t' || c == '\n' || c == '\r'

/-- JS `parseFloat` on the decimal subset the repository produces: skip
leading whitespace, optional sign, then the longest numeric prefix; `none`
models `NaN`. Exponent suffixes and `Infinity` never occur in the
repository data and are not modelled. -/
def parseFloatQ (s : String) : Option ℚ :=
  match s.data.dropWhile isJsSpace with
  | '-' :: cs => (parseUnsigned cs).map Neg.neg
  | '+' :: cs => parseUnsigned cs
  | cs => parseUnsigned cs

/-- JS `String.prototype.replace(pat, emptyString)` with a single-character
string pattern: removes the first occurrence only. -/
def removeFirst (pat : Char) : List Char → List Char
  | [] => []
  | c :: cs => if c = pat then cs else c :: removeFirst pat cs

/-- The `value.replace(dollar, empty).replace(comma, empty)` then
`parseFloat` pipeline of `getTotalValue` and the `topCards` comparator.
Note only the first `$` and the first `,` are removed. -/
def parseMoney (s : String) : Option ℚ :=
  parseFloatQ ⟨removeFirst ',' (removeFirst '$' s.data)⟩

/-- One vault entry, as built by `addCard` and stored under the single
storage key. Field reads yield `Option _` with `none` for
`undefined`/`null`. `subgrades` is the ordered axis-name-to-score mapping;
`tags` is an array of strings. Extra ad-hoc keys carried along by the
`...cardData` spread are outside every claim and are not modelled. -/
structure CollectionEntry where
  id : Option String
  name : Option String
  set : Option String
  setNumber : Option String
  overallGrade : Option String
  subgrades : Option (List (String × ℚ))
  marketValue : Option String
  photoUri : Option String
  scannedAt : Option String
  confidence : Option ℚ
  notes : Option String
  tags : Option (List String)
  updatedAt : Option String
deriving DecidableEq, Repr

/-- The caller-supplied `cardData` object (also the `updates` patch of
`updateCard`): every field is a slot that can be absent (`none`), present
and `undefined`/`null` (`some none`), or present with a value. -/
structure CardData where
  id : Option (Option String) := none
  name : Option (Option String) := none
  set : Option (Option String) := none
  setNumber : Option (Option String) := none
  overallGrade : Option (Option String) := none
  subgrades : Option (Option (List (String × ℚ))) := none
  marketValue : Option (Option String) := none
  photoUri : Option (Option String) := none
  scannedAt : Option (Option String) := none
  confidence : Option (Option ℚ) := none
  notes : Option (Option String) := none
  tags : Option (Option (List String)) := none
deriving DecidableEq, Repr

/-- The object literal built inside `addCard` before the final spread:
each line is the corresponding `cardData.field || default` (or the bare
read for `name` and `photoUri`, and the generated values for `id` and
`scannedAt`). `nowStr` models `Date.now().toString()` and `nowIso` models
`new Date().toISOString()`. -/
def cardDefaults (nowStr nowIso : String) (d : CardData) : CollectionEntry :=
  { id := some (jsOrStr d.id.join nowStr)
  , name := d.name.join
  , set := some (jsOrStr d.set.join "Unknown Set")
  , setNumber := some (jsOrStr d.setNumber.join "Unknown")
  , overallGrade := some (jsOrStr d.overallGrade.join "N/A")
  , subgrades := some (jsOrObj d.subgrades.join [])
  , marketValue := some (jsOrStr d.marketValue.join "N/A")
  , photoUri := d.photoUri.join
  , scannedAt := some (jsOrStr d.scannedAt.join nowIso)
  , confidence := some (jsOrQ d.confidence.join 0)
  , notes := some (jsOrStr d.notes.join "")
  , tags := some (jsOrObj d.tags.join [])
  , updatedAt := none }

/-- The trailing `...cardData` spread of `addCard`: every key present in
`cardData` overrides the default object, including keys whose value is
`undefined`. -/
def spreadCardData (base : CollectionEntry) (d : CardData) : CollectionEntry :=
  { id := d.id.getD base.id
  , name := d.name.getD base.name
  , set := d.set.getD base.set
  , setNumber := d.setNumber.getD base.setNumber
  , overallGrade := d.overallGrade.getD base.overallGrade
  , subgrades := d.subgrades.getD base.subgrades
  , marketValue := d.marketValue.getD base.marketValue
  , photoUri := d.photoUri.getD base.photoUri
  , scannedAt := d.scannedAt.getD base.scannedAt
  , confidence := d.confidence.getD base.confidence
  , notes := d.notes.getD base.notes
  , tags := d.tags.getD base.tags
  , updatedAt := base.updatedAt }

/-- The complete entry construction of `addCard`: defaults object followed
by the `...cardData` spread. -/
def buildCard (nowStr nowIso : String) (d : CardData) : CollectionEntry :=
  spreadCardData (cardDefaults nowStr nowIso d) d

/-- Failure of the persisted read/write (an `AsyncStorage` rejection). -/
structure StorageError where
  msg : String
deriving DecidableEq, Repr

/-- Vault provider state: the in-memory `cards` array and the value
persisted under the single storage key (`none` when the key is absent). -/
structure VaultState where
  cards : List CollectionEntry
  storage : Option (List CollectionEntry)
deriving DecidableEq, Repr

/-- The `loadCards` routine: the outcome of `AsyncStorage.getItem` plus
`JSON.parse` is the `read` argument (a parse failure is the `error` case).
Any failure and the absent key both yield the empty list; the routine
itself never raises, which is expressed by its total non-Except type. -/
def loadCards (read : Except StorageError (Option (List CollectionEntry))) :
    List CollectionEntry :=
  match read with
  | .error _ => []
  | .ok none => []
  | .ok (some l) => l

/-- The `addCard` operation. `save` is the outcome of the awaited
`saveCards` write; the source catches a write failure, logs it and
rethrows, so the same error is returned to the caller. `setCards` runs
before the await, so the in-memory list is updated even when the write
fails. -/
def addCard (nowStr nowIso : String) (save : Option StorageError)
    (d : CardData) (st : VaultState) :
    VaultState × Except StorageError CollectionEntry :=
  let card := buildCard nowStr nowIso d
  let newCards := card :: st.cards
  match save with
  | some e => ({ st with cards := newCards }, .error e)
  | none => ({ cards := newCards, storage := some newCards }, .ok card)

/-- The `\x7b...card, ...updates, updatedAt\x7d` merge inside
`updateCard`. -/
def applyPatch (nowIso : String) (c : CollectionEntry) (updates : CardData) :
    CollectionEntry :=
  { id := updates.id.getD c.id
  , name := updates.name.getD c.name
  , set := updates.set.getD c.set
  , setNumber := updates.setNumber.getD c.setNumber
  , overallGrade := updates.overallGrade.getD c.overallGrade
  , subgrades := updates.subgrades.getD c.subgrades
  , marketValue := updates.marketValue.getD c.marketValue
  , photoUri := updates.photoUri.getD c.photoUri
  , scannedAt := updates.scannedAt.getD c.scannedAt
  , confidence := updates.confidence.getD c.confidence
  , notes := updates.notes.getD c.notes
  , tags := updates.tags.getD c.tags
  , updatedAt := some nowIso }

/-- The `updateCard` operation: map the patch over the matching id, set
`updatedAt`, persist, return the updated entry (or `none` when the id is
absent); a failing write is rethrown. -/
def updateCard (nowIso : String) (save : Option StorageError)
    (cardId : Option String) (updates : CardData) (st : VaultState) :
    VaultState × Except StorageError (Option CollectionEntry) :=
  let updatedCards := st.cards.map
    (fun c => if c.id = cardId then applyPatch nowIso c updates else c)
  match save with
  | some e => ({ st with cards := updatedCards }, .error e)
  | none => ({ cards := updatedCards, storage := some updatedCards },
      .ok (updatedCards.find? (fun c => decide (c.id = cardId))))

/-- The `deleteCard` operation: filter out the matching id, persist; a
failing write is rethrown. -/
def deleteCard (save : Option StorageError) (cardId : Option String)
    (st : VaultState) : VaultState × Except StorageError Unit :=
  let updatedCards := st.cards.filter (fun c => decide (c.id ≠ cardId))
  match save with
  | some e => ({ st with cards := updatedCards }, .error e)
  | none => ({ cards := updatedCards, storage := some updatedCards }, .ok ())

/-- The versioned snapshot produced by `exportVault`. The source returns
`JSON.stringify` of this object; serialization of plain data is faithful,
so the codec is modelled at the level of the package itself. -/
structure ExportPackage where
  exportedAt : String
  version : String
  totalCards : ℕ
  cards : List CollectionEntry
deriving DecidableEq, Repr

/-- The `exportVault` operation: wraps the current list, nulling every
`photoUri` via `\x7b...card, photoUri: null\x7d`. -/
def exportVault (exportedAt : String) (cards : List CollectionEntry) :
    ExportPackage :=
  { exportedAt := exportedAt
  , version := "1.0"
  , totalCards := cards.length
  , cards := cards.map (fun card => { card with photoUri := none }) }

/-- Shape of the parsed `importVault` payload. `missingCards` covers an
absent or falsy `cards` field, `cardsNotArray` a truthy non-array value;
`Array.isArray` accepts the empty array, which is `cardsArr []`. -/
inductive ImportPayload where
  | missingCards
  | cardsNotArray
  | cardsArr (cards : List CollectionEntry)
deriving DecidableEq, Repr

/-- Result of `JSON.parse` applied to the string `exportVault` produced:
the parsed object carries the same `cards` array (stringify followed by
parse is the identity on this plain data). -/
def parseExport (pkg : ExportPackage) : ImportPayload :=
  .cardsArr pkg.cards

/-- Errors that `importVault` can throw: the explicit invalid-format
rejection, or a rethrown storage failure from the awaited save. -/
inductive ImportError where
  | invalidFormat
  | storage (e : StorageError)
deriving DecidableEq, Repr

/-- The merge branch of `importVault`: collect the existing ids, keep only
imported entries whose id is not already present (a `Set.has` test under
SameValueZero equality, i.e. decidable equality on `Option String`), and
append them after the existing entries. -/
def mergeCards (cards importedCards : List CollectionEntry) :
    List CollectionEntry :=
  let existingIds := cards.map (fun c => c.id)
  let uniqueImportCards := importedCards.filter
    (fun c => decide (c.id ∉ existingIds))
  cards ++ uniqueImportCards

/-- The `importVault` operation. The format check throws before any state
is touched; on the happy path `setCards` runs, then the awaited save
either persists or its failure is rethrown. The returned counts are the
length of the raw `cards` payload and the length of the resulting list. -/
def importVault (save : Option StorageError) (payload : ImportPayload)
    (merge : Bool) (st : VaultState) :
    VaultState × Except ImportError (ℕ × ℕ) :=
  match payload with
  | .cardsArr importedCards =>
      let newCards := if merge then mergeCards st.cards importedCards
                      else importedCards
      match save with
      | some e => ({ st with cards := newCards }, .error (.storage e))
      | none => ({ cards := newCards, storage := some newCards },
          .ok (importedCards.length, newCards.length))
  | _ => (st, .error .invalidFormat)

/-- Parsed market value of an entry inside the stats engine, after the
strip-and-parse pipeline, with the `|| 0` fallback turning a failed parse
into `0`. On a nullish `marketValue` the source would throw before
producing a number; the `0` returned here is never relied on by any
theorem below. -/
def entryValue (c : CollectionEntry) : ℚ :=
  match c.marketValue with
  | some s => (parseMoney s).getD 0
  | none => 0

/-- The `getTotalValue` reduction: skip entries whose `marketValue` is
falsy or the literal string N/A, otherwise add the parsed value (with the
`|| 0` fallback). -/
def getTotalValue (cards : List CollectionEntry) : ℚ :=
  cards.foldl
    (fun total card =>
      match card.marketValue with
      | some s => if s = "" then total
                  else if s = "N/A" then total
                  else total + (parseMoney s).getD 0
      | none => total) 0

/-- Stable insertion of one element into a list already sorted by
descending `val`, placing it before the first strictly smaller element. -/
def insertDescBy {α : Type} (val : α → ℚ) (a : α) : List α → List α
  | [] => [a]
  | b :: t => if val b ≤ val a then a :: b :: t else b :: insertDescBy val a t

/-- Stable descending sort by `val`. This models
`array.sort((a, b) => bVal - aVal)`: the ECMAScript 2019 specification
makes that sort stable, and the stable sort consistent with a total
preorder is unique, so this structurally recursive insertion sort computes
exactly the same list. -/
def sortDescBy {α : Type} (val : α → ℚ) : List α → List α
  | [] => []
  | a :: t => insertDescBy val a (sortDescBy val t)

/-- The `topCards` pipeline of `getCollectionStats`: drop entries whose
`marketValue` is the literal string N/A (and nothing else), sort the rest
by parsed value descending, take the first five. -/
def topCardsOf (cards : List CollectionEntry) : List CollectionEntry :=
  (sortDescBy entryValue
    (cards.filter (fun c => decide (c.marketValue ≠ some "N/A")))).take 5

/-- JS `Math.round(x * 10) / 10`, rounding half toward positive
infinity. -/
def jsRound1 (x : ℚ) : ℚ :=
  (⌊x * 10 + 1 / 2⌋ : ℚ) / 10

/-- Parsed overall grade used by the valid-grades filter: `none` when the
grade is the literal N/A, nullish (so that `parseFloat` sees the string
undefined and yields `NaN`), or fails to parse. -/
def gradeOf (c : CollectionEntry) : Option ℚ :=
  match c.overallGrade with
  | none => none
  | some s => if s = "N/A" then none else parseFloatQ s

/-- Derived statistics record. The two histograms are modelled
extensionally as count functions; the incrementally built JS objects hold
exactly these multiplicities. -/
structure CollectionStats where
  totalCards : ℕ
  totalValue : ℚ
  averageGrade : ℚ
  gradeCounts : ℤ → ℕ
  setCounts : Option String → ℕ
  topCards : List CollectionEntry

/-- The `getCollectionStats` computation, including its early return for
the empty list. -/
def getCollectionStats (cards : List CollectionEntry) : CollectionStats :=
  if cards.isEmpty then
    { totalCards := 0
    , totalValue := 0
    , averageGrade := 0
    , gradeCounts := fun _ => 0
    , setCounts := fun _ => 0
    , topCards := [] }
  else
    let validGrades := cards.filter (fun c => (gradeOf c).isSome)
    let totalGrade := validGrades.foldl
      (fun sum c => sum + (gradeOf c).getD 0) 0
    let averageGrade :=
      if validGrades.length > 0 then totalGrade / validGrades.length else 0
    { totalCards := cards.length
    , totalValue := getTotalValue cards
    , averageGrade := jsRound1 averageGrade
    , gradeCounts := fun g =>
        validGrades.countP (fun c => decide (⌊(gradeOf c).getD 0⌋ = g))
    , setCounts := fun s => cards.countP (fun c => decide (c.set = s))
    , topCards := topCardsOf cards }

/-- ASCII lowercasing of one character, the effect of
`String.prototype.toLowerCase` on the ASCII names the repository uses. -/
def jsLowerChar (c : Char) : Char :=
  if 'A' ≤ c ∧ c ≤ 'Z' then Char.ofNat (c.toNat + 32) else c

/-- The seed of `generateMockGrading`:
`cardName.toLowerCase().charCodeAt(0) || 80`. The char code of the first
character of the lowercased name; for the empty string `charCodeAt`
yields `NaN`, and for a zero code the value is falsy, so both fall back
to `80`. -/
def mockSeed (cardName : String) : ℕ :=
  match cardName.data with
  | [] => 80
  | c :: _ =>
      if (jsLowerChar c).toNat = 0 then 80 else (jsLowerChar c).toNat

/-- The base grade `7 + (seed % 3)` of `generateMockGrading`. -/
def mockBaseGrade (cardName : String) : ℕ :=
  7 + mockSeed cardName % 3

/-- The clamp `Math.min(10, Math.max(5, x))` applied to every axis. -/
def clampGrade (x : ℚ) : ℚ :=
  min 10 (max 5 x)

/-- One condition axis of `generateMockGrading`. The jitter argument
models one draw of `(Math.random() - 0.5) * 1.5`. -/
def mockAxis (cardName : String) (jitter : ℚ) : ℚ :=
  jsRound1 (clampGrade (mockBaseGrade cardName + jitter))

/-- The range of one `(Math.random() - 0.5) * 1.5` draw:
`Math.random()` lies in `[0, 1)`. -/
def JitterRange (j : ℚ) : Prop :=
  -(3 / 4) ≤ j ∧ j < 3 / 4

/-- The four condition axes returned by `generateMockGrading`. -/
structure MockGrading where
  centering : ℚ
  surface : ℚ
  edges : ℚ
  corners : ℚ
deriving DecidableEq, Repr

/-- The `generateMockGrading` function, with the four independent jitter
draws passed explicitly. -/
def generateMockGrading (cardName : String) (j1 j2 j3 j4 : ℚ) : MockGrading :=
  { centering := mockAxis cardName j1
  , surface := mockAxis cardName j2
  , edges := mockAxis cardName j3
  , corners := mockAxis cardName j4 }

/-- Modelled from the spec for comparison (section 4.4): the claimed
formula `baseGrade = 7 + (charCode(name[0] or P) mod 3)`, reading
`name[0]` as the first character of the name as given and the fallback
as the char code 80 of the capital letter P. -/
def specBaseGrade (cardName : String) : ℕ :=
  match cardName.data with
  | [] => 7 + 80 % 3
  | c :: _ => 7 + c.toNat % 3

/-- One vertex of the radar chart, in chart coordinates. -/
structure RadarPoint where
  x : ℚ
  y : ℚ
deriving DecidableEq, Repr

/-- The axis angle `i * angleStep - PI / 2` with
`angleStep = 2 * PI / numberOfSides`. The numeric value of PI is
irrelevant to every claim, so it is an explicit parameter `piQ` and the
trigonometric functions are likewise parameters below; the source uses
the IEEE `Math.PI`, `Math.cos`, `Math.sin`. -/
def axisAngle (piQ : ℚ) (numberOfSides : ℕ) (i : ℕ) : ℚ :=
  i * (2 * piQ / numberOfSides) - piQ / 2

/-- One polygon vertex of the radar chart:
`center + (radius * (value / maxValue)) * cos(angle)` and the same with
`sin` for the y coordinate. Used with `value := level` for the grid
polygons and with the axis value for the data polygon. -/
def radarVertex (cosF sinF : ℚ → ℚ) (piQ center radius maxValue : ℚ)
    (numberOfSides : ℕ) (value : ℚ) (i : ℕ) : RadarPoint :=
  let angle := axisAngle piQ numberOfSides i
  { x := center + radius * (value / maxValue) * cosF angle
  , y := center + radius * (value / maxValue) * sinF angle }

/-- The grid polygon drawn at one fixed level. -/
def gridPolygon (cosF sinF : ℚ → ℚ) (piQ center radius maxValue : ℚ)
    (numberOfSides : ℕ) (level : ℚ) : List RadarPoint :=
  (List.range numberOfSides).map
    (fun i => radarVertex cosF sinF piQ center radius maxValue numberOfSides
      level i)

/-- The data polygon: the same angles with each axis value of the ordered
data mapping in place of the level. -/
def dataPolygon (cosF sinF : ℚ → ℚ) (piQ center radius maxValue : ℚ)
    (dataPoints : List (String × ℚ)) : List RadarPoint :=
  (List.range dataPoints.length).map
    (fun i => radarVertex cosF sinF piQ center radius maxValue
      dataPoints.length (dataPoints.getD i ("", 0)).2 i)

/-- The fixed grid levels of the chart. -/
def gridLevels : List ℚ := [2, 4, 6, 8, 10]

/-! Shared concrete entries and helper lemmas used by the theorems below. -/

/-- A fully populated concrete entry with the given name and market
value, used as test data. -/
def mkEntry (nm : String) (mv : Option String) : CollectionEntry :=
  { id := some nm
  , name := some nm
  , set := some "Base Set"
  , setNumber := some "1"
  , overallGrade := some "N/A"
  , subgrades := some []
  , marketValue := mv
  , photoUri := none
  , scannedAt := some "2024-01-01T00:00:00.000Z"
  , confidence := some 1
  , notes := some ""
  , tags := some []
  , updatedAt := none }

theorem mem_insertDescBy {α : Type} (val : α → ℚ) (a x : α) (l : List α) :
    x ∈ insertDescBy val a l ↔ x = a ∨ x ∈ l := by
  induction l with
  | nil => simp [insertDescBy]
  | cons b t ih =>
      by_cases h : val b ≤ val a
      · simp [insertDescBy, h]
      · simp only [insertDescBy, if_neg h, List.mem_cons, ih]
        tauto

theorem mem_sortDescBy {α : Type} (val : α → ℚ) (x : α) (l : List α) :
    x ∈ sortDescBy val l ↔ x ∈ l := by
  induction l with
  | nil => simp [sortDescBy]
  | cons a t ih => simp [sortDescBy, mem_insertDescBy, ih]

theorem clampGrade_range (x : ℚ) : 5 ≤ clampGrade x ∧ clampGrade x ≤ 10 := by
  unfold clampGrade
  exact ⟨le_min (by norm_num) (le_max_left 5 x), min_le_left 10 _⟩

theorem jsRound1_range (x : ℚ) (h5 : 5 ≤ x) (h10 : x ≤ 10) :
    5 ≤ jsRound1 x ∧ jsRound1 x ≤ 10 := by
  unfold jsRound1
  have h1 : (50 : ℤ) ≤ ⌊x * 10 + 1 / 2⌋ := Int.le_floor.mpr (by push_cast; linarith)
  have h2 : ⌊x * 10 + 1 / 2⌋ ≤ ⌊(201 : ℚ) / 2⌋ := Int.floor_le_floor (by linarith)
  have h3 : ⌊(201 : ℚ) / 2⌋ = 100 := Int.floor_eq_iff.mpr (by norm_num)
  have h1q : (50 : ℚ) ≤ (⌊x * 10 + 1 / 2⌋ : ℚ) := by exact_mod_cast h1
  have h2q : (⌊x * 10 + 1 / 2⌋ : ℚ) ≤ 100 := by exact_mod_cast h3 ▸ h2
  exact ⟨by linarith, by linarith⟩

/-- Claim C1: addCard fills each missing optional field with its default,
generates a time-based id when the input has none, prepends the new
entry (it becomes the first element), returns the entry, and never fails
on valid input (with the persistence write succeeding; its failure mode
is claim C6). -/
theorem addCard_defaults_and_prepends
    (nowStr nowIso : String) (d : CardData) (st : VaultState) :
    ∃ card newSt,
      addCard nowStr nowIso none d st = (newSt, .ok card) ∧
      newSt.cards = card :: st.cards ∧
      newSt.cards.head? = some card ∧
      (d.set = none → card.set = some "Unknown Set") ∧
      (d.marketValue = none → card.marketValue = some "N/A") ∧
      (d.confidence = none → card.confidence = some 0) ∧
      (d.tags = none → card.tags = some []) ∧
      (d.notes = none → card.notes = some "") ∧
      (d.subgrades = none → card.subgrades = some []) ∧
      (d.id = none → card.id = some nowStr) := by
  refine ⟨buildCard nowStr nowIso d, _, rfl, rfl, rfl, ?_, ?_, ?_, ?_, ?_, ?_, ?_⟩ <;>
    intro h <;>
    simp [buildCard, spreadCardData, cardDefaults, h, jsOrStr, jsOrQ, jsOrObj]

/-- Witness for C1 at a concrete empty input. -/
theorem addCard_defaults_and_prepends_witness :
    ∃ card newSt,
      addCard "1700000000000" "2024-01-01T00:00:00.000Z" none {} ⟨[], none⟩ =
        (newSt, .ok card) ∧
      newSt.cards = card :: ([] : List CollectionEntry) ∧
      newSt.cards.head? = some card ∧
      (({} : CardData).set = none → card.set = some "Unknown Set") ∧
      (({} : CardData).marketValue = none → card.marketValue = some "N/A") ∧
      (({} : CardData).confidence = none → card.confidence = some 0) ∧
      (({} : CardData).tags = none → card.tags = some []) ∧
      (({} : CardData).notes = none → card.notes = some "") ∧
      (({} : CardData).subgrades = none → card.subgrades = some []) ∧
      (({} : CardData).id = none → card.id = some "1700000000000") :=
  addCard_defaults_and_prepends "1700000000000" "2024-01-01T00:00:00.000Z" {} ⟨[], none⟩

/-- Claim C9: the final spread of the raw input over the computed
defaults means any key present in the input overrides its default, even
when its value is undefined: present-undefined set yields an undefined
set field instead of the default, and likewise for tags; in general any
present field keeps its raw value. -/
theorem addCard_spread_overrides
    (nowStr nowIso : String) (d : CardData) (st : VaultState) :
    (addCard nowStr nowIso none d st).2 = .ok (buildCard nowStr nowIso d) ∧
    (d.set = some none → (buildCard nowStr nowIso d).set = none) ∧
    (d.tags = some none → (buildCard nowStr nowIso d).tags = none) ∧
    (∀ v, d.id = some v → (buildCard nowStr nowIso d).id = v) ∧
    (∀ v, d.name = some v → (buildCard nowStr nowIso d).name = v) ∧
    (∀ v, d.set = some v → (buildCard nowStr nowIso d).set = v) ∧
    (∀ v, d.setNumber = some v → (buildCard nowStr nowIso d).setNumber = v) ∧
    (∀ v, d.overallGrade = some v → (buildCard nowStr nowIso d).overallGrade = v) ∧
    (∀ v, d.subgrades = some v → (buildCard nowStr nowIso d).subgrades = v) ∧
    (∀ v, d.marketValue = some v → (buildCard nowStr nowIso d).marketValue = v) ∧
    (∀ v, d.photoUri = some v → (buildCard nowStr nowIso d).photoUri = v) ∧
    (∀ v, d.scannedAt = some v → (buildCard nowStr nowIso d).scannedAt = v) ∧
    (∀ v, d.confidence = some v → (buildCard nowStr nowIso d).confidence = v) ∧
    (∀ v, d.notes = some v → (buildCard nowStr nowIso d).notes = v) ∧
    (∀ v, d.tags = some v → (buildCard nowStr nowIso d).tags = v) := by
  refine ⟨rfl, ?_, ?_, ?_, ?_, ?_, ?_, ?_, ?_, ?_, ?_, ?_, ?_, ?_, ?_⟩
  · intro h; simp [buildCard, spreadCardData, h]
  · intro h; simp [buildCard, spreadCardData, h]
  all_goals intro v h; simp [buildCard, spreadCardData, h]

/-- Witness for C9: an input whose set and tags keys are present with
value undefined produces an entry with undefined set and tags. -/
theorem addCard_spread_overrides_witness :
    (buildCard "1" "t" { set := some none, tags := some none }).set = none ∧
    (buildCard "1" "t" { set := some none, tags := some none }).tags = none :=
  ⟨(addCard_spread_overrides "1" "t" { set := some none, tags := some none }
      ⟨[], none⟩).2.1 rfl,
   (addCard_spread_overrides "1" "t" { set := some none, tags := some none }
      ⟨[], none⟩).2.2.1 rfl⟩

/-- Claim C5: when the parsed import payload lacks a cards field or its
cards field is not a sequence, importVault fails with the invalid-format
error and neither the in-memory entry list nor the persisted state is
touched (the whole import is rejected atomically). -/
theorem importVault_rejects_invalid_format
    (save : Option StorageError) (merge : Bool) (st : VaultState)
    (p : ImportPayload) (h : p = .missingCards ∨ p = .cardsNotArray) :
    importVault save p merge st = (st, .error .invalidFormat) := by
  rcases h with h | h <;> subst h <;> rfl

/-- Witness for C5 on a concrete nonempty state. -/
theorem importVault_rejects_invalid_format_witness :
    importVault none .missingCards true
        ⟨[mkEntry "a" (some "N/A")], some [mkEntry "a" (some "N/A")]⟩ =
      (⟨[mkEntry "a" (some "N/A")], some [mkEntry "a" (some "N/A")]⟩,
        .error .invalidFormat) :=
  importVault_rejects_invalid_format none true
    ⟨[mkEntry "a" (some "N/A")], some [mkEntry "a" (some "N/A")]⟩
    .missingCards (Or.inl rfl)

/-- Claim C6: loading with an absent storage key or a failed read yields
the empty vault without raising (loadCards is a total function into
plain lists), while a failing persistence write is rethrown by every
mutating operation: addCard, updateCard and deleteCard each surface the
same storage error to their caller. -/
theorem storage_contract :
    (∀ e, loadCards (.error e) = []) ∧
    loadCards (.ok none) = [] ∧
    (∀ l, loadCards (.ok (some l)) = l) ∧
    (∀ e nowStr nowIso d st,
      (addCard nowStr nowIso (some e) d st).2 = .error e) ∧
    (∀ e nowIso cid upd st,
      (updateCard nowIso (some e) cid upd st).2 = .error e) ∧
    (∀ e cid st, (deleteCard (some e) cid st).2 = .error e) :=
  ⟨fun _ => rfl, rfl, fun _ => rfl, fun _ _ _ _ _ => rfl,
   fun _ _ _ _ _ => rfl, fun _ _ _ => rfl⟩

/-- Claim C3: a merge import drops imported entries whose id already
exists in the current vault, appends the remainder after the existing
entries (existing order preserved, import order preserved), returns the
imported and total counts; an all-duplicates merge leaves the card count
unchanged and a merge of entries whose ids are all new grows it by
exactly their number. -/
theorem importVault_merge_semantics
    (importedCards : List CollectionEntry) (st : VaultState) :
    (importVault none (.cardsArr importedCards) true st).1.cards =
      st.cards ++ importedCards.filter
        (fun c => decide (c.id ∉ st.cards.map (fun x => x.id))) ∧
    (importVault none (.cardsArr importedCards) true st).2 =
      .ok (importedCards.length,
        st.cards.length + (importedCards.filter
          (fun c => decide (c.id ∉ st.cards.map (fun x => x.id)))).length) ∧
    ((∀ c ∈ importedCards, c.id ∈ st.cards.map (fun x => x.id)) →
      (importVault none (.cardsArr importedCards) true st).1.cards.length =
        st.cards.length) ∧
    ((∀ c ∈ importedCards, c.id ∉ st.cards.map (fun x => x.id)) →
      (importVault none (.cardsArr importedCards) true st).1.cards.length =
        st.cards.length + importedCards.length) := by
  refine ⟨rfl, ?_, ?_, ?_⟩
  · simp [importVault, mergeCards]
  · intro h
    have hnil : importedCards.filter
        (fun c => decide (c.id ∉ st.cards.map (fun x => x.id))) = [] := by
      simp only [List.filter_eq_nil_iff, decide_eq_true_eq]
      intro c hc
      simpa using h c hc
    have hc : (importVault none (.cardsArr importedCards) true st).1.cards =
        st.cards ++ importedCards.filter
          (fun c => decide (c.id ∉ st.cards.map (fun x => x.id))) := rfl
    rw [hc, hnil, List.append_nil]
  · intro h
    have hall : importedCards.filter
        (fun c => decide (c.id ∉ st.cards.map (fun x => x.id))) = importedCards := by
      rw [List.filter_eq_self]
      intro c hc
      simpa using h c hc
    have hc : (importVault none (.cardsArr importedCards) true st).1.cards =
        st.cards ++ importedCards.filter
          (fun c => decide (c.id ∉ st.cards.map (fun x => x.id))) := rfl
    rw [hc, hall, List.length_append]

/-- Witness for C3: one duplicate id is dropped and one new id is kept. -/
theorem importVault_merge_semantics_witness :
    (importVault none
        (.cardsArr [mkEntry "dup" (some "N/A"), mkEntry "new" (some "N/A")]) true
        ⟨[mkEntry "dup" (some "N/A")], none⟩).1.cards =
      [mkEntry "dup" (some "N/A")] ++
        ([mkEntry "dup" (some "N/A"), mkEntry "new" (some "N/A")].filter
          (fun c => decide (c.id ∉ [mkEntry "dup" (some "N/A")].map (fun x => x.id)))) ∧
    (importVault none
        (.cardsArr [mkEntry "dup" (some "N/A"), mkEntry "new" (some "N/A")]) true
        ⟨[mkEntry "dup" (some "N/A")], none⟩).2 =
      .ok (([mkEntry "dup" (some "N/A"), mkEntry "new" (some "N/A")] :
              List CollectionEntry).length,
        ([mkEntry "dup" (some "N/A")] : List CollectionEntry).length +
          ([mkEntry "dup" (some "N/A"), mkEntry "new" (some "N/A")].filter
            (fun c => decide (c.id ∉ [mkEntry "dup" (some "N/A")].map
              (fun x => x.id)))).length) ∧
    ((∀ c ∈ [mkEntry "dup" (some "N/A"), mkEntry "new" (some "N/A")],
        c.id ∈ [mkEntry "dup" (some "N/A")].map (fun x => x.id)) →
      (importVault none
          (.cardsArr [mkEntry "dup" (some "N/A"), mkEntry "new" (some "N/A")]) true
          ⟨[mkEntry "dup" (some "N/A")], none⟩).1.cards.length =
        ([mkEntry "dup" (some "N/A")] : List CollectionEntry).length) ∧
    ((∀ c ∈ [mkEntry "dup" (some "N/A"), mkEntry "new" (some "N/A")],
        c.id ∉ [mkEntry "dup" (some "N/A")].map (fun x => x.id)) →
      (importVault none
          (.cardsArr [mkEntry "dup" (some "N/A"), mkEntry "new" (some "N/A")]) true
          ⟨[mkEntry "dup" (some "N/A")], none⟩).1.cards.length =
        ([mkEntry "dup" (some "N/A")] : List CollectionEntry).length +
          ([mkEntry "dup" (some "N/A"), mkEntry "new" (some "N/A")] :
            List CollectionEntry).length) :=
  importVault_merge_semantics
    [mkEntry "dup" (some "N/A"), mkEntry "new" (some "N/A")]
    ⟨[mkEntry "dup" (some "N/A")], none⟩

/-- Claim C10: the imported count returned by a merge import is the full
length of the payload cards array, counting duplicates that were
dropped, while the total count is the length of the resulting merged
list; in particular an all-duplicates merge still reports the full
payload length as imported. -/
theorem importVault_counts_full_payload
    (importedCards : List CollectionEntry) (st : VaultState) :
    (importVault none (.cardsArr importedCards) true st).2 =
      .ok (importedCards.length,
        (importVault none (.cardsArr importedCards) true st).1.cards.length) ∧
    ((∀ c ∈ importedCards, c.id ∈ st.cards.map (fun x => x.id)) →
      (importVault none (.cardsArr importedCards) true st).2 =
        .ok (importedCards.length, st.cards.length)) := by
  constructor
  · rfl
  · intro h
    have hnil : importedCards.filter
        (fun c => decide (c.id ∉ st.cards.map (fun x => x.id))) = [] := by
      simp only [List.filter_eq_nil_iff, decide_eq_true_eq]
      intro c hc
      simpa using h c hc
    have hc : (importVault none (.cardsArr importedCards) true st).2 =
        .ok (importedCards.length,
          (st.cards ++ importedCards.filter
            (fun c => decide (c.id ∉ st.cards.map (fun x => x.id)))).length) := rfl
    rw [hc, hnil, List.append_nil]

/-- Witness for C10: two duplicates are dropped yet both counted. -/
theorem importVault_counts_full_payload_witness :
    (importVault none
        (.cardsArr [mkEntry "a" (some "N/A"), mkEntry "a" (some "N/A")]) true
        ⟨[mkEntry "a" (some "N/A")], none⟩).2 =
      .ok (([mkEntry "a" (some "N/A"), mkEntry "a" (some "N/A")] :
          List CollectionEntry).length,
        ([mkEntry "a" (some "N/A")] : List CollectionEntry).length) :=
  (importVault_counts_full_payload
      [mkEntry "a" (some "N/A"), mkEntry "a" (some "N/A")]
      ⟨[mkEntry "a" (some "N/A")], none⟩).2
    (by decide)

/-- Equality of two entries on every field except photoUri. -/
def EqExceptPhoto (a b : CollectionEntry) : Prop :=
  a.id = b.id ∧ a.name = b.name ∧ a.set = b.set ∧ a.setNumber = b.setNumber ∧
  a.overallGrade = b.overallGrade ∧ a.subgrades = b.subgrades ∧
  a.marketValue = b.marketValue ∧ a.scannedAt = b.scannedAt ∧
  a.confidence = b.confidence ∧ a.notes = b.notes ∧ a.tags = b.tags ∧
  a.updatedAt = b.updatedAt

theorem eqExceptPhoto_strip (c : CollectionEntry) :
    EqExceptPhoto { c with photoUri := none } c :=
  ⟨rfl, rfl, rfl, rfl, rfl, rfl, rfl, rfl, rfl, rfl, rfl, rfl⟩

/-- Claim C4: every entry of the export package has its photoUri nulled,
and a replace import of the export yields a list of the same length
whose entries agree with the pre-export list on every field except
photoUri, which is null. -/
theorem export_import_roundtrip (exportedAt : String) (st : VaultState) :
    (∀ c ∈ (exportVault exportedAt st.cards).cards, c.photoUri = none) ∧
    (importVault none (parseExport (exportVault exportedAt st.cards))
        false st).1.cards.length = st.cards.length ∧
    (∀ i (h1 : i < (importVault none (parseExport (exportVault exportedAt st.cards))
          false st).1.cards.length) (h2 : i < st.cards.length),
      EqExceptPhoto
        ((importVault none (parseExport (exportVault exportedAt st.cards))
          false st).1.cards.get ⟨i, h1⟩)
        (st.cards.get ⟨i, h2⟩) ∧
      ((importVault none (parseExport (exportVault exportedAt st.cards))
          false st).1.cards.get ⟨i, h1⟩).photoUri = none) := by
  have hres : (importVault none (parseExport (exportVault exportedAt st.cards))
      false st).1.cards = st.cards.map (fun card => { card with photoUri := none }) := rfl
  refine ⟨?_, ?_, ?_⟩
  · intro c hc
    simp only [exportVault, List.mem_map] at hc
    obtain ⟨x, _, rfl⟩ := hc
    rfl
  · rw [hres, List.length_map]
  · intro i h1 h2
    have hg : (importVault none (parseExport (exportVault exportedAt st.cards))
        false st).1.cards.get ⟨i, h1⟩ =
        { st.cards.get ⟨i, h2⟩ with photoUri := none } := by
      simp [hres, List.get_eq_getElem, List.getElem_map]
    rw [hg]
    exact ⟨eqExceptPhoto_strip _, rfl⟩

/-- Witness for C4 on a one-entry vault carrying a photo reference. -/
theorem export_import_roundtrip_witness :
    (∀ c ∈ (exportVault "2024-06-01T00:00:00.000Z"
        (VaultState.cards ⟨[{ mkEntry "a" (some "$50.00") with
          photoUri := some "file-a.jpg" }], none⟩)).cards, c.photoUri = none) ∧
    (importVault none (parseExport (exportVault "2024-06-01T00:00:00.000Z"
        (VaultState.cards ⟨[{ mkEntry "a" (some "$50.00") with
          photoUri := some "file-a.jpg" }], none⟩)))
        false ⟨[{ mkEntry "a" (some "$50.00") with
          photoUri := some "file-a.jpg" }], none⟩).1.cards.length =
      (VaultState.cards ⟨[{ mkEntry "a" (some "$50.00") with
          photoUri := some "file-a.jpg" }], none⟩).length ∧
    (∀ i (h1 : i < (importVault none (parseExport (exportVault "2024-06-01T00:00:00.000Z"
          (VaultState.cards ⟨[{ mkEntry "a" (some "$50.00") with
            photoUri := some "file-a.jpg" }], none⟩)))
          false ⟨[{ mkEntry "a" (some "$50.00") with
            photoUri := some "file-a.jpg" }], none⟩).1.cards.length)
        (h2 : i < (VaultState.cards ⟨[{ mkEntry "a" (some "$50.00") with
            photoUri := some "file-a.jpg" }], none⟩).length),
      EqExceptPhoto
        ((importVault none (parseExport (exportVault "2024-06-01T00:00:00.000Z"
          (VaultState.cards ⟨[{ mkEntry "a" (some "$50.00") with
            photoUri := some "file-a.jpg" }], none⟩)))
          false ⟨[{ mkEntry "a" (some "$50.00") with
            photoUri := some "file-a.jpg" }], none⟩).1.cards.get ⟨i, h1⟩)
        ((VaultState.cards ⟨[{ mkEntry "a" (some "$50.00") with
            photoUri := some "file-a.jpg" }], none⟩).get ⟨i, h2⟩) ∧
      ((importVault none (parseExport (exportVault "2024-06-01T00:00:00.000Z"
          (VaultState.cards ⟨[{ mkEntry "a" (some "$50.00") with
            photoUri := some "file-a.jpg" }], none⟩)))
          false ⟨[{ mkEntry "a" (some "$50.00") with
            photoUri := some "file-a.jpg" }], none⟩).1.cards.get
          ⟨i, h1⟩).photoUri = none) :=
  export_import_roundtrip "2024-06-01T00:00:00.000Z"
    ⟨[{ mkEntry "a" (some "$50.00") with photoUri := some "file-a.jpg" }], none⟩

/-- The spec example entry with market value of fifty dollars. -/
def card50 : CollectionEntry := mkEntry "a" (some "$50.00")

/-- The spec example entry with no market value. -/
def cardNA : CollectionEntry := mkEntry "b" (some "N/A")

/-- The spec example entry with market value of 120.50 dollars. -/
def card120 : CollectionEntry := mkEntry "c" (some "$120.50")

/-- Modelled from the spec (section 4.2): the total collection value as
the spec describes it, the sum of the successfully parsed market values
over entries whose marketValue is truthy and not the literal N/A;
entries whose value fails to parse contribute nothing. -/
def parsedValueSum (cards : List CollectionEntry) : ℚ :=
  (cards.filterMap (fun c =>
    match c.marketValue with
    | some s => if s = "" then none else if s = "N/A" then none else parseMoney s
    | none => none)).sum

theorem getTotalValue_foldl (l : List CollectionEntry) (acc : ℚ) :
    l.foldl
      (fun total card =>
        match card.marketValue with
        | some s => if s = "" then total
                    else if s = "N/A" then total
                    else total + (parseMoney s).getD 0
        | none => total) acc = acc + parsedValueSum l := by
  induction l generalizing acc with
  | nil => simp [parsedValueSum]
  | cons c t ih =>
      rw [List.foldl_cons, ih]
      rcases hmv : c.marketValue with _ | s
      · simp [parsedValueSum, List.filterMap_cons, hmv]
      · by_cases h1 : s = ""
        · simp [parsedValueSum, List.filterMap_cons, hmv, h1]
        · by_cases h2 : s = "N/A"
          · simp [parsedValueSum, List.filterMap_cons, hmv, h1, h2]
          · rcases hp : parseMoney s with _ | q
            · simp [parsedValueSum, List.filterMap_cons, hmv, h1, h2, hp]
            · simp [parsedValueSum, List.filterMap_cons, hmv, h1, h2, hp, add_assoc]

theorem getTotalValue_eq_parsedValueSum (l : List CollectionEntry) :
    getTotalValue l = parsedValueSum l := by
  have h := getTotalValue_foldl l 0
  rw [zero_add] at h
  exact h

/-- Claim C2 counterexample: an entry whose market value fails to parse
is not excluded from topCards (it is listed, with the fallback value 0),
and stripping the thousands separators is incomplete: only the first
comma is removed, so the value 1234567 dollars parses as 1234 rather
than 1234567. -/
theorem stats_parsing_counterexample :
    parseMoney "abc" = none ∧
    mkEntry "x" (some "abc") ∈
      (getCollectionStats [mkEntry "x" (some "abc")]).topCards ∧
    parseMoney "$1,234,567.00" = some 1234 ∧
    (1234 : ℚ) ≠ 1234567 := by
  refine ⟨by decide, ?_, ?_, by norm_num⟩
  · simp +decide [getCollectionStats, topCardsOf, sortDescBy, insertDescBy]
  · simp +decide [parseMoney, parseFloatQ, parseUnsigned, takeDigits,
      digitsToNat, removeFirst, isJsSpace]

/-- Claim C2, amended: the stats computation strips the first dollar sign
and the first comma and parses the longest numeric prefix as a float;
entries whose marketValue is falsy or the literal N/A contribute nothing
to totalValue and failed parses contribute 0, so totalValue is the sum of
the successfully parsed values; topCards however excludes only entries
whose marketValue is exactly the literal N/A — an entry with any other
marketValue, parseable or not, falsy or not (for example the empty
string), stays in the topCards ranking with fallback value 0 — and all
entries are counted in setCounts and totalCards. The spec example still
holds: totalValue is 170.50 and topCards is the 120.50 entry followed by
the 50.00 entry. -/
theorem stats_parsing_amended :
    (getTotalValue [card50, cardNA, card120] = 341 / 2 ∧
     (getCollectionStats [card50, cardNA, card120]).totalValue = 341 / 2 ∧
     (getCollectionStats [card50, cardNA, card120]).topCards = [card120, card50] ∧
     getTotalValue [mkEntry "y" (some "")] = 0 ∧
     mkEntry "y" (some "") ∈
       (getCollectionStats [mkEntry "y" (some "")]).topCards) ∧
    (∀ l c, c ∈ (getCollectionStats l).topCards → c.marketValue ≠ some "N/A") ∧
    (∀ l, (getCollectionStats l).totalCards = l.length) ∧
    (∀ l s, (getCollectionStats l).setCounts s =
      l.countP (fun c => decide (c.set = s))) ∧
    (∀ l, getTotalValue l = parsedValueSum l) := by
  have h50 : entryValue (mkEntry "a" (some "$50.00")) = 50 := by
    simp +decide [entryValue, mkEntry, parseMoney, parseFloatQ,
      parseUnsigned, takeDigits, digitsToNat, removeFirst, isJsSpace]
  have h120 : entryValue (mkEntry "c" (some "$120.50")) = 241 / 2 := by
    simp +decide [entryValue, mkEntry, parseMoney, parseFloatQ,
      parseUnsigned, takeDigits, digitsToNat, removeFirst, isJsSpace]
    norm_num
  have hTV : getTotalValue [card50, cardNA, card120] = 341 / 2 := by
    simp +decide [getTotalValue, card50, cardNA, card120, mkEntry, parseMoney,
      parseFloatQ, parseUnsigned, takeDigits, digitsToNat, removeFirst, isJsSpace]
    norm_num
  refine ⟨⟨hTV, ?_, ?_, ?_, ?_⟩, ?_, ?_, ?_, getTotalValue_eq_parsedValueSum⟩
  · simp only [getCollectionStats]
    rw [if_neg (by decide)]
    exact hTV
  · simp only [getCollectionStats]
    rw [if_neg (by decide)]
    simp +decide [topCardsOf, card50, cardNA, card120, sortDescBy,
      insertDescBy, h50, h120]
    norm_num
  · rfl
  · simp +decide [getCollectionStats, topCardsOf, sortDescBy, insertDescBy]
  · intro l c hc
    by_cases he : l.isEmpty = true
    · rw [getCollectionStats, if_pos he] at hc
      simp at hc
    · rw [getCollectionStats, if_neg he] at hc
      have h1 : c ∈ sortDescBy entryValue
          (l.filter (fun x => decide (x.marketValue ≠ some "N/A"))) :=
        List.take_subset 5 _ hc
      rw [mem_sortDescBy] at h1
      have h2 := (List.mem_filter.mp h1).2
      simpa using h2
  · intro l
    by_cases he : l.isEmpty = true
    · rw [getCollectionStats, if_pos he]
      simp [List.isEmpty_iff.mp he]
    · rw [getCollectionStats, if_neg he]
  · intro l s
    by_cases he : l.isEmpty = true
    · rw [getCollectionStats, if_pos he]
      simp [List.isEmpty_iff.mp he]
    · rw [getCollectionStats, if_neg he]

/-- Witness for C2 as amended: a concrete unparseable entry reached
through the topCards membership hypothesis, and the concrete totalCards
count. -/
theorem stats_parsing_amended_witness :
    (mkEntry "x" (some "abc")).marketValue ≠ some "N/A" ∧
    (getCollectionStats [card50, cardNA, card120]).totalCards = 3 :=
  ⟨stats_parsing_amended.2.1 [mkEntry "x" (some "abc")] (mkEntry "x" (some "abc"))
      (by simp +decide [getCollectionStats, topCardsOf, sortDescBy, insertDescBy]),
   by have h := stats_parsing_amended.2.2.1 [card50, cardNA, card120]
      simpa using h⟩

/-- Claim C7 counterexample: the generator lowercases the name before
taking the char code, so the claimed formula over the raw first
character diverges: for the name Pikachu the spec formula gives base
grade 9 (char code 80) while the code gives 8 (char code 112 of the
lowercased initial). -/
theorem mockGrading_formula_counterexample :
    specBaseGrade "Pikachu" = 9 ∧ mockBaseGrade "Pikachu" = 8 ∧
    specBaseGrade "Pikachu" ≠ mockBaseGrade "Pikachu" :=
  ⟨by decide, by decide, by decide⟩

/-- Claim C7, amended: the base grade is
7 + (charCode(lowercase(name)[0] or 80) mod 3), a value in the set 7, 8,
9; each condition axis is clamp(baseGrade + jitter, 5, 10) rounded to
one decimal with the jitter drawn per axis from the interval from -0.75
inclusive to 0.75 exclusive; hence every generated axis value of every
generated grading lies in the interval from 5 to 10 inclusive. -/
theorem mockGrading_range_amended :
    (∀ nm, mockBaseGrade nm = 7 ∨ mockBaseGrade nm = 8 ∨ mockBaseGrade nm = 9) ∧
    (∀ nm j, JitterRange j → 5 ≤ mockAxis nm j ∧ mockAxis nm j ≤ 10) ∧
    (∀ nm j1 j2 j3 j4, JitterRange j1 → JitterRange j2 → JitterRange j3 →
      JitterRange j4 →
      (5 ≤ (generateMockGrading nm j1 j2 j3 j4).centering ∧
        (generateMockGrading nm j1 j2 j3 j4).centering ≤ 10) ∧
      (5 ≤ (generateMockGrading nm j1 j2 j3 j4).surface ∧
        (generateMockGrading nm j1 j2 j3 j4).surface ≤ 10) ∧
      (5 ≤ (generateMockGrading nm j1 j2 j3 j4).edges ∧
        (generateMockGrading nm j1 j2 j3 j4).edges ≤ 10) ∧
      (5 ≤ (generateMockGrading nm j1 j2 j3 j4).corners ∧
        (generateMockGrading nm j1 j2 j3 j4).corners ≤ 10)) := by
  have haxis : ∀ nm j, 5 ≤ mockAxis nm j ∧ mockAxis nm j ≤ 10 := by
    intro nm j
    have hc := clampGrade_range (mockBaseGrade nm + j)
    exact jsRound1_range _ hc.1 hc.2
  refine ⟨?_, fun nm j _ => haxis nm j, fun nm j1 j2 j3 j4 _ _ _ _ => ?_⟩
  · intro nm
    unfold mockBaseGrade
    omega
  · exact ⟨haxis nm j1, haxis nm j2, haxis nm j3, haxis nm j4⟩

/-- Witness for C7 as amended, at the name Pikachu with concrete
jitters. -/
theorem mockGrading_range_amended_witness :
    5 ≤ mockAxis "Pikachu" (1 / 2) ∧ mockAxis "Pikachu" (1 / 2) ≤ 10 :=
  mockGrading_range_amended.2.1 "Pikachu" (1 / 2) ⟨by norm_num, by norm_num⟩

/-- Claim C8: axis i sits at angle i * (2 pi / N) - pi / 2 (axis 0 at
the top), and when every axis value equals maxValue the data polygon has
exactly the vertices of the grid polygon computed at level maxValue,
for every axis count N of at least 1. The result holds for arbitrary
interpretations of pi, cos and sin, since both polygons evaluate them at
the same angles. -/
theorem radar_data_polygon_at_max
    (cosF sinF : ℚ → ℚ) (piQ center radius maxValue : ℚ)
    (dataPoints : List (String × ℚ)) (_hN : 1 ≤ dataPoints.length)
    (hmax : ∀ p ∈ dataPoints, p.2 = maxValue) :
    dataPolygon cosF sinF piQ center radius maxValue dataPoints =
      gridPolygon cosF sinF piQ center radius maxValue dataPoints.length
        maxValue ∧
    axisAngle piQ dataPoints.length 0 = -(piQ / 2) := by
  constructor
  · unfold dataPolygon gridPolygon
    apply List.map_congr_left
    intro i hi
    have hi2 : i < dataPoints.length := List.mem_range.mp hi
    have hmem : dataPoints.getD i ("", 0) ∈ dataPoints := by
      rw [List.getD_eq_getElem dataPoints ("", 0) hi2]
      exact List.getElem_mem hi2
    rw [hmax _ hmem]
  · unfold axisAngle
    push_cast
    ring

/-- Witness for C8 on a one-axis chart at full value, with concrete
stand-ins for pi, cos and sin. -/
theorem radar_data_polygon_at_max_witness :
    dataPolygon (fun _ => 1) (fun _ => 0) 3 125 85 10 [("centering", 10)] =
      gridPolygon (fun _ => 1) (fun _ => 0) 3 125 85 10
        ([("centering", (10 : ℚ))] : List (String × ℚ)).length 10 ∧
    axisAngle 3 ([("centering", (10 : ℚ))] : List (String × ℚ)).length 0 =
      -(3 / 2) :=
  radar_data_polygon_at_max (fun _ => 1) (fun _ => 0) 3 125 85 10
    [("centering", 10)] (by norm_num)
    (by intro p hp; rw [List.mem_singleton] at hp; rw [hp])

end PokemonVault
